import Mathlib

/-!
Verification development for the EduFin synthetic portfolio generator
(`SQL_V2_data_Code_5Lakh.py`).  The generator's table-building functions are
embedded shallowly: every `random.uniform` / `random.randint` /
`random.random` / `random.choice` draw becomes an explicit parameter of the
row constructor, constrained by a validity predicate recording the drawn
range exactly as the source requests it; floats are modelled by `ℚ`,
calendar dates by day numbers in `ℤ`, and Python's `round(x, 2)` by
rounding-to-nearest at two decimals.
-/

namespace EduFin

/-- Python `round(x, 2)`: round to the nearest multiple of 1/100
(ties differ between Python's half-even and `round`'s half-up, but every
property proved below only uses that this is a monotone nearest rounding). -/
def round2 (q : ℚ) : ℚ := (round (100 * q) : ℤ) / 100

theorem round2_mono {a b : ℚ} (h : a ≤ b) : round2 a ≤ round2 b := by
  unfold round2
  have : round (100 * a) ≤ round (100 * b) := by
    rw [round_eq, round_eq]
    exact Int.floor_le_floor (by linarith)
  exact div_le_div_of_nonneg_right (by exact_mod_cast this) (by norm_num)

theorem round2_abs_sub (q : ℚ) : |round2 q - q| ≤ 1 / 200 := by
  unfold round2
  have h := abs_sub_round (100 * q)
  have h2 : |(round (100 * q) : ℚ) - 100 * q| ≤ 1 / 2 := by
    rw [abs_sub_comm] at h; exact h
  have : |((round (100 * q) : ℚ) / 100 - q)| = |(round (100 * q) : ℚ) - 100 * q| / 100 := by
    rw [← abs_of_pos (show (0:ℚ) < 100 by norm_num), ← abs_div]
    congr 1
    field_simp
  rw [this]
  linarith

theorem round2_intCast (n : ℤ) : round2 (n : ℚ) = n := by
  unfold round2
  rw [show ((100 : ℚ) * n) = ((100 * n : ℤ) : ℚ) by push_cast; ring, round_intCast]
  push_cast
  field_simp

-- ===========================================================================
-- Reference data: INDIAN_STATES (source lines 50-79), INDIAN_CITIES (82-390)
-- ===========================================================================

structure StateInfo where
  state_name : String
  region : String
deriving DecidableEq, Repr

structure CityInfo where
  city_name : String
  state_name : String
  tier : String
deriving DecidableEq, Repr

/-- `INDIAN_STATES` (source lines 50-79). -/
def INDIAN_STATES : List StateInfo := [
  StateInfo.mk "Andhra Pradesh" "South",
  StateInfo.mk "Arunachal Pradesh" "Northeast",
  StateInfo.mk "Assam" "Northeast",
  StateInfo.mk "Bihar" "East",
  StateInfo.mk "Chhattisgarh" "Central",
  StateInfo.mk "Goa" "West",
  StateInfo.mk "Gujarat" "West",
  StateInfo.mk "Haryana" "North",
  StateInfo.mk "Himachal Pradesh" "North",
  StateInfo.mk "Jharkhand" "East",
  StateInfo.mk "Karnataka" "South",
  StateInfo.mk "Kerala" "South",
  StateInfo.mk "Madhya Pradesh" "Central",
  StateInfo.mk "Maharashtra" "West",
  StateInfo.mk "Manipur" "Northeast",
  StateInfo.mk "Meghalaya" "Northeast",
  StateInfo.mk "Mizoram" "Northeast",
  StateInfo.mk "Nagaland" "Northeast",
  StateInfo.mk "Odisha" "East",
  StateInfo.mk "Punjab" "North",
  StateInfo.mk "Rajasthan" "North",
  StateInfo.mk "Sikkim" "Northeast",
  StateInfo.mk "Tamil Nadu" "South",
  StateInfo.mk "Telangana" "South",
  StateInfo.mk "Tripura" "Northeast",
  StateInfo.mk "Uttar Pradesh" "North",
  StateInfo.mk "Uttarakhand" "North",
  StateInfo.mk "West Bengal" "East"]

/-- `INDIAN_CITIES` (source lines 82-390). -/
def INDIAN_CITIES : List CityInfo := [
  CityInfo.mk "Visakhapatnam" "Andhra Pradesh" "Tier2",
  CityInfo.mk "Vijayawada" "Andhra Pradesh" "Tier2",
  CityInfo.mk "Guntur" "Andhra Pradesh" "Tier3",
  CityInfo.mk "Tirupati" "Andhra Pradesh" "Tier2",
  CityInfo.mk "Kurnool" "Andhra Pradesh" "Tier3",
  CityInfo.mk "Nellore" "Andhra Pradesh" "Tier3",
  CityInfo.mk "Rajahmundry" "Andhra Pradesh" "Tier3",
  CityInfo.mk "Anantapur" "Andhra Pradesh" "Tier3",
  CityInfo.mk "Kadapa" "Andhra Pradesh" "Tier3",
  CityInfo.mk "Chittoor" "Andhra Pradesh" "Tier3",
  CityInfo.mk "Eluru" "Andhra Pradesh" "Tier3",
  CityInfo.mk "Srikakulam" "Andhra Pradesh" "Tier3",
  CityInfo.mk "Ongole" "Andhra Pradesh" "Tier3",
  CityInfo.mk "Proddatur" "Andhra Pradesh" "Tier3",
  CityInfo.mk "Nandyal" "Andhra Pradesh" "Tier3",
  CityInfo.mk "Kakinada" "Andhra Pradesh" "Tier3",
  CityInfo.mk "Bapatla" "Andhra Pradesh" "Tier3",
  CityInfo.mk "Tenali" "Andhra Pradesh" "Tier3",
  CityInfo.mk "Bhimavaram" "Andhra Pradesh" "Tier3",
  CityInfo.mk "Amalapuram" "Andhra Pradesh" "Tier3",
  CityInfo.mk "Itanagar" "Arunachal Pradesh" "Tier3",
  CityInfo.mk "Tawang" "Arunachal Pradesh" "Tier3",
  CityInfo.mk "Ziro" "Arunachal Pradesh" "Tier3",
  CityInfo.mk "Pasighat" "Arunachal Pradesh" "Tier3",
  CityInfo.mk "Naharlagun" "Arunachal Pradesh" "Tier3",
  CityInfo.mk "Roing" "Arunachal Pradesh" "Tier3",
  CityInfo.mk "Tezu" "Arunachal Pradesh" "Tier3",
  CityInfo.mk "Namsai" "Arunachal Pradesh" "Tier3",
  CityInfo.mk "Aalo" "Arunachal Pradesh" "Tier3",
  CityInfo.mk "Bomdila" "Arunachal Pradesh" "Tier3",
  CityInfo.mk "Seppa" "Arunachal Pradesh" "Tier3",
  CityInfo.mk "Yingkiong" "Arunachal Pradesh" "Tier3",
  CityInfo.mk "Changlang" "Arunachal Pradesh" "Tier3",
  CityInfo.mk "Guwahati" "Assam" "Tier2",
  CityInfo.mk "Dibrugarh" "Assam" "Tier3",
  CityInfo.mk "Jorhat" "Assam" "Tier3",
  CityInfo.mk "Nagaon" "Assam" "Tier3",
  CityInfo.mk "Silchar" "Assam" "Tier3",
  CityInfo.mk "Tinsukia" "Assam" "Tier3",
  CityInfo.mk "Bongaigaon" "Assam" "Tier3",
  CityInfo.mk "Barpeta" "Assam" "Tier3",
  CityInfo.mk "Tezpur" "Assam" "Tier3",
  CityInfo.mk "Sivasagar" "Assam" "Tier3",
  CityInfo.mk "Nalbari" "Assam" "Tier3",
  CityInfo.mk "Dhemaji" "Assam" "Tier3",
  CityInfo.mk "Goalpara" "Assam" "Tier3",
  CityInfo.mk "Patna" "Bihar" "Tier2",
  CityInfo.mk "Gaya" "Bihar" "Tier3",
  CityInfo.mk "Bhagalpur" "Bihar" "Tier3",
  CityInfo.mk "Muzaffarpur" "Bihar" "Tier3",
  CityInfo.mk "Darbhanga" "Bihar" "Tier3",
  CityInfo.mk "Munger" "Bihar" "Tier3",
  CityInfo.mk "Begusarai" "Bihar" "Tier3",
  CityInfo.mk "Purnia" "Bihar" "Tier3",
  CityInfo.mk "Arrah" "Bihar" "Tier3",
  CityInfo.mk "Siwan" "Bihar" "Tier3",
  CityInfo.mk "Samastipur" "Bihar" "Tier3",
  CityInfo.mk "Nalanda" "Bihar" "Tier3",
  CityInfo.mk "Buxar" "Bihar" "Tier3",
  CityInfo.mk "Raipur" "Chhattisgarh" "Tier2",
  CityInfo.mk "Bhilai" "Chhattisgarh" "Tier3",
  CityInfo.mk "Bilaspur" "Chhattisgarh" "Tier3",
  CityInfo.mk "Korba" "Chhattisgarh" "Tier3",
  CityInfo.mk "Durg" "Chhattisgarh" "Tier3",
  CityInfo.mk "Rajnandgaon" "Chhattisgarh" "Tier3",
  CityInfo.mk "Raigarh" "Chhattisgarh" "Tier3",
  CityInfo.mk "Jagdalpur" "Chhattisgarh" "Tier3",
  CityInfo.mk "Ambikapur" "Chhattisgarh" "Tier3",
  CityInfo.mk "Dhamtari" "Chhattisgarh" "Tier3",
  CityInfo.mk "Panaji" "Goa" "Tier3",
  CityInfo.mk "Vasco da Gama" "Goa" "Tier3",
  CityInfo.mk "Margao" "Goa" "Tier3",
  CityInfo.mk "Mapusa" "Goa" "Tier3",
  CityInfo.mk "Ponda" "Goa" "Tier3",
  CityInfo.mk "Bicholim" "Goa" "Tier3",
  CityInfo.mk "Ahmedabad" "Gujarat" "Tier1",
  CityInfo.mk "Surat" "Gujarat" "Tier1",
  CityInfo.mk "Vadodara" "Gujarat" "Tier2",
  CityInfo.mk "Rajkot" "Gujarat" "Tier2",
  CityInfo.mk "Gandhinagar" "Gujarat" "Tier3",
  CityInfo.mk "Bhavnagar" "Gujarat" "Tier3",
  CityInfo.mk "Jamnagar" "Gujarat" "Tier3",
  CityInfo.mk "Junagadh" "Gujarat" "Tier3",
  CityInfo.mk "Anand" "Gujarat" "Tier3",
  CityInfo.mk "Nadiad" "Gujarat" "Tier3",
  CityInfo.mk "Valsad" "Gujarat" "Tier3",
  CityInfo.mk "Bharuch" "Gujarat" "Tier3",
  CityInfo.mk "Porbandar" "Gujarat" "Tier3",
  CityInfo.mk "Patan" "Gujarat" "Tier3",
  CityInfo.mk "Faridabad" "Haryana" "Tier1",
  CityInfo.mk "Gurgaon" "Haryana" "Tier1",
  CityInfo.mk "Ambala" "Haryana" "Tier3",
  CityInfo.mk "Hisar" "Haryana" "Tier3",
  CityInfo.mk "Panipat" "Haryana" "Tier3",
  CityInfo.mk "Rohtak" "Haryana" "Tier3",
  CityInfo.mk "Karnal" "Haryana" "Tier3",
  CityInfo.mk "Sonipat" "Haryana" "Tier3",
  CityInfo.mk "Yamunanagar" "Haryana" "Tier3",
  CityInfo.mk "Sirsa" "Haryana" "Tier3",
  CityInfo.mk "Shimla" "Himachal Pradesh" "Tier3",
  CityInfo.mk "Dharamshala" "Himachal Pradesh" "Tier3",
  CityInfo.mk "Manali" "Himachal Pradesh" "Tier3",
  CityInfo.mk "Solan" "Himachal Pradesh" "Tier3",
  CityInfo.mk "Kullu" "Himachal Pradesh" "Tier3",
  CityInfo.mk "Mandi" "Himachal Pradesh" "Tier3",
  CityInfo.mk "Nahan" "Himachal Pradesh" "Tier3",
  CityInfo.mk "Palampur" "Himachal Pradesh" "Tier3",
  CityInfo.mk "Bilaspur" "Himachal Pradesh" "Tier3",
  CityInfo.mk "Hamirpur" "Himachal Pradesh" "Tier3",
  CityInfo.mk "Ranchi" "Jharkhand" "Tier2",
  CityInfo.mk "Jamshedpur" "Jharkhand" "Tier2",
  CityInfo.mk "Dhanbad" "Jharkhand" "Tier3",
  CityInfo.mk "Bokaro Steel City" "Jharkhand" "Tier3",
  CityInfo.mk "Hazaribagh" "Jharkhand" "Tier3",
  CityInfo.mk "Deoghar" "Jharkhand" "Tier3",
  CityInfo.mk "Dumka" "Jharkhand" "Tier3",
  CityInfo.mk "Giridih" "Jharkhand" "Tier3",
  CityInfo.mk "Chaibasa" "Jharkhand" "Tier3",
  CityInfo.mk "Bengaluru" "Karnataka" "Tier1",
  CityInfo.mk "Mysuru" "Karnataka" "Tier2",
  CityInfo.mk "Mangaluru" "Karnataka" "Tier2",
  CityInfo.mk "Hubballi" "Karnataka" "Tier3",
  CityInfo.mk "Belagavi" "Karnataka" "Tier3",
  CityInfo.mk "Davangere" "Karnataka" "Tier3",
  CityInfo.mk "Ballari" "Karnataka" "Tier3",
  CityInfo.mk "Tumakuru" "Karnataka" "Tier3",
  CityInfo.mk "Udupi" "Karnataka" "Tier3",
  CityInfo.mk "Chikkamagaluru" "Karnataka" "Tier3",
  CityInfo.mk "Thiruvananthapuram" "Kerala" "Tier2",
  CityInfo.mk "Kochi" "Kerala" "Tier1",
  CityInfo.mk "Kozhikode" "Kerala" "Tier2",
  CityInfo.mk "Thrissur" "Kerala" "Tier3",
  CityInfo.mk "Kollam" "Kerala" "Tier3",
  CityInfo.mk "Kannur" "Kerala" "Tier3",
  CityInfo.mk "Alappuzha" "Kerala" "Tier3",
  CityInfo.mk "Palakkad" "Kerala" "Tier3",
  CityInfo.mk "Kottayam" "Kerala" "Tier3",
  CityInfo.mk "Malappuram" "Kerala" "Tier3",
  CityInfo.mk "Bhopal" "Madhya Pradesh" "Tier2",
  CityInfo.mk "Indore" "Madhya Pradesh" "Tier1",
  CityInfo.mk "Gwalior" "Madhya Pradesh" "Tier2",
  CityInfo.mk "Jabalpur" "Madhya Pradesh" "Tier2",
  CityInfo.mk "Ujjain" "Madhya Pradesh" "Tier3",
  CityInfo.mk "Sagar" "Madhya Pradesh" "Tier3",
  CityInfo.mk "Rewa" "Madhya Pradesh" "Tier3",
  CityInfo.mk "Satna" "Madhya Pradesh" "Tier3",
  CityInfo.mk "Khandwa" "Madhya Pradesh" "Tier3",
  CityInfo.mk "Burhanpur" "Madhya Pradesh" "Tier3",
  CityInfo.mk "Mumbai" "Maharashtra" "Tier1",
  CityInfo.mk "Pune" "Maharashtra" "Tier1",
  CityInfo.mk "Nagpur" "Maharashtra" "Tier1",
  CityInfo.mk "Nashik" "Maharashtra" "Tier2",
  CityInfo.mk "Aurangabad" "Maharashtra" "Tier2",
  CityInfo.mk "Thane" "Maharashtra" "Tier1",
  CityInfo.mk "Solapur" "Maharashtra" "Tier2",
  CityInfo.mk "Kolhapur" "Maharashtra" "Tier3",
  CityInfo.mk "Amravati" "Maharashtra" "Tier3",
  CityInfo.mk "Jalgaon" "Maharashtra" "Tier3",
  CityInfo.mk "Nanded" "Maharashtra" "Tier3",
  CityInfo.mk "Sangli" "Maharashtra" "Tier3",
  CityInfo.mk "Akola" "Maharashtra" "Tier3",
  CityInfo.mk "Chandrapur" "Maharashtra" "Tier3",
  CityInfo.mk "Parbhani" "Maharashtra" "Tier3",
  CityInfo.mk "Imphal" "Manipur" "Tier3",
  CityInfo.mk "Thoubal" "Manipur" "Tier3",
  CityInfo.mk "Kakching" "Manipur" "Tier3",
  CityInfo.mk "Bishnupur" "Manipur" "Tier3",
  CityInfo.mk "Churachandpur" "Manipur" "Tier3",
  CityInfo.mk "Shillong" "Meghalaya" "Tier3",
  CityInfo.mk "Tura" "Meghalaya" "Tier3",
  CityInfo.mk "Jowai" "Meghalaya" "Tier3",
  CityInfo.mk "Nongpoh" "Meghalaya" "Tier3",
  CityInfo.mk "Williamnagar" "Meghalaya" "Tier3",
  CityInfo.mk "Aizawl" "Mizoram" "Tier3",
  CityInfo.mk "Lunglei" "Mizoram" "Tier3",
  CityInfo.mk "Champhai" "Mizoram" "Tier3",
  CityInfo.mk "Kolasib" "Mizoram" "Tier3",
  CityInfo.mk "Serchhip" "Mizoram" "Tier3",
  CityInfo.mk "Kohima" "Nagaland" "Tier3",
  CityInfo.mk "Dimapur" "Nagaland" "Tier3",
  CityInfo.mk "Mokokchung" "Nagaland" "Tier3",
  CityInfo.mk "Wokha" "Nagaland" "Tier3",
  CityInfo.mk "Zunheboto" "Nagaland" "Tier3",
  CityInfo.mk "Bhubaneswar" "Odisha" "Tier2",
  CityInfo.mk "Cuttack" "Odisha" "Tier2",
  CityInfo.mk "Rourkela" "Odisha" "Tier3",
  CityInfo.mk "Berhampur" "Odisha" "Tier3",
  CityInfo.mk "Sambalpur" "Odisha" "Tier3",
  CityInfo.mk "Balasore" "Odisha" "Tier3",
  CityInfo.mk "Jharsuguda" "Odisha" "Tier3",
  CityInfo.mk "Amritsar" "Punjab" "Tier2",
  CityInfo.mk "Ludhiana" "Punjab" "Tier2",
  CityInfo.mk "Jalandhar" "Punjab" "Tier2",
  CityInfo.mk "Patiala" "Punjab" "Tier3",
  CityInfo.mk "Bathinda" "Punjab" "Tier3",
  CityInfo.mk "Mohali" "Punjab" "Tier2",
  CityInfo.mk "Hoshiarpur" "Punjab" "Tier3",
  CityInfo.mk "Moga" "Punjab" "Tier3",
  CityInfo.mk "Jaipur" "Rajasthan" "Tier1",
  CityInfo.mk "Jodhpur" "Rajasthan" "Tier2",
  CityInfo.mk "Udaipur" "Rajasthan" "Tier2",
  CityInfo.mk "Kota" "Rajasthan" "Tier2",
  CityInfo.mk "Ajmer" "Rajasthan" "Tier3",
  CityInfo.mk "Bikaner" "Rajasthan" "Tier3",
  CityInfo.mk "Alwar" "Rajasthan" "Tier3",
  CityInfo.mk "Chittorgarh" "Rajasthan" "Tier3",
  CityInfo.mk "Pali" "Rajasthan" "Tier3",
  CityInfo.mk "Sikar" "Rajasthan" "Tier3",
  CityInfo.mk "Gangtok" "Sikkim" "Tier3",
  CityInfo.mk "Namchi" "Sikkim" "Tier3",
  CityInfo.mk "Mangan" "Sikkim" "Tier3",
  CityInfo.mk "Chennai" "Tamil Nadu" "Tier1",
  CityInfo.mk "Coimbatore" "Tamil Nadu" "Tier1",
  CityInfo.mk "Madurai" "Tamil Nadu" "Tier2",
  CityInfo.mk "Tiruchirappalli" "Tamil Nadu" "Tier2",
  CityInfo.mk "Salem" "Tamil Nadu" "Tier2",
  CityInfo.mk "Tirunelveli" "Tamil Nadu" "Tier3",
  CityInfo.mk "Erode" "Tamil Nadu" "Tier3",
  CityInfo.mk "Vellore" "Tamil Nadu" "Tier3",
  CityInfo.mk "Dindigul" "Tamil Nadu" "Tier3",
  CityInfo.mk "Hyderabad" "Telangana" "Tier1",
  CityInfo.mk "Warangal" "Telangana" "Tier2",
  CityInfo.mk "Khammam" "Telangana" "Tier3",
  CityInfo.mk "Karimnagar" "Telangana" "Tier3",
  CityInfo.mk "Nizamabad" "Telangana" "Tier3",
  CityInfo.mk "Mahabubnagar" "Telangana" "Tier3",
  CityInfo.mk "Agartala" "Tripura" "Tier3",
  CityInfo.mk "Kailashahar" "Tripura" "Tier3",
  CityInfo.mk "Udaipur" "Tripura" "Tier3",
  CityInfo.mk "Belonia" "Tripura" "Tier3",
  CityInfo.mk "Lucknow" "Uttar Pradesh" "Tier1",
  CityInfo.mk "Kanpur" "Uttar Pradesh" "Tier1",
  CityInfo.mk "Varanasi" "Uttar Pradesh" "Tier2",
  CityInfo.mk "Agra" "Uttar Pradesh" "Tier2",
  CityInfo.mk "Allahabad" "Uttar Pradesh" "Tier2",
  CityInfo.mk "Ghaziabad" "Uttar Pradesh" "Tier1",
  CityInfo.mk "Meerut" "Uttar Pradesh" "Tier2",
  CityInfo.mk "Noida" "Uttar Pradesh" "Tier1",
  CityInfo.mk "Bareilly" "Uttar Pradesh" "Tier3",
  CityInfo.mk "Aligarh" "Uttar Pradesh" "Tier3",
  CityInfo.mk "Dehradun" "Uttarakhand" "Tier2",
  CityInfo.mk "Haridwar" "Uttarakhand" "Tier3",
  CityInfo.mk "Nainital" "Uttarakhand" "Tier3",
  CityInfo.mk "Roorkee" "Uttarakhand" "Tier3",
  CityInfo.mk "Haldwani" "Uttarakhand" "Tier3",
  CityInfo.mk "Kolkata" "West Bengal" "Tier1",
  CityInfo.mk "Darjeeling" "West Bengal" "Tier3",
  CityInfo.mk "Siliguri" "West Bengal" "Tier2",
  CityInfo.mk "Asansol" "West Bengal" "Tier3",
  CityInfo.mk "Howrah" "West Bengal" "Tier2",
  CityInfo.mk "Durgapur" "West Bengal" "Tier3",
  CityInfo.mk "Kalyani" "West Bengal" "Tier3"]

-- ===========================================================================
-- Step 1: create_dim_state (source lines 396-416)
-- ===========================================================================

structure StateRow where
  state_id : Nat
  state_name : String
  region : String
deriving DecidableEq, Repr

/-- `create_dim_state`: states enumerated from 1 in list order. -/
def create_dim_state : List StateRow :=
  INDIAN_STATES.enum.map fun p => ⟨p.1 + 1, p.2.state_name, p.2.region⟩

-- ===========================================================================
-- Step 2: create_dim_city (source lines 422-448)
-- ===========================================================================

structure CityRow where
  city_id : Nat
  city_name : String
  state_id : Nat
  tier_classification : String
deriving DecidableEq, Repr

/-- The `state_lookup` dict built from the state dataframe: name ↦ state_id.
A missing key (Python `KeyError`) is modelled by `none`. -/
def state_lookup (name : String) : Option Nat :=
  (create_dim_state.find? (fun r => r.state_name == name)).map (·.state_id)

/-- `create_dim_city`: cities enumerated from 1, each resolving its state id
through `state_lookup`; `none` models the run aborting on a missing state. -/
def create_dim_city : Option (List CityRow) :=
  INDIAN_CITIES.enum.mapM fun p =>
    (state_lookup p.2.state_name).map fun sid =>
      ⟨p.1 + 1, p.2.city_name, sid, p.2.tier⟩

/-- The concrete city table (defaulting to `[]`, but `create_dim_city` is in
fact `some` of this list). -/
def dimCityRows : List CityRow := create_dim_city.getD []

set_option maxRecDepth 8000 in
/-- C5: every generated City row has a `state_id` in the valid State id range
1..28 equal to the id of the State row whose `state_name` matches the city's
state, and the lookup never fails. -/
theorem city_state_ref_ok :
    create_dim_city = some dimCityRows ∧
    dimCityRows.length = INDIAN_CITIES.length ∧
    (∀ r ∈ dimCityRows, 1 ≤ r.state_id ∧ r.state_id ≤ 28) ∧
    (∀ pr ∈ dimCityRows.zip INDIAN_CITIES,
      ∃ s ∈ create_dim_state,
        s.state_name = pr.2.state_name ∧ s.state_id = pr.1.state_id) :=
  ⟨rfl, by decide, by decide, by decide⟩

-- ===========================================================================
-- Configuration constants (source lines 30-32, 660)
-- ===========================================================================

def CUSTOMER_RECORDS : Nat := 500000
def OTHER_TABLE_RECORDS : Nat := 350000
def BATCH_SIZE : Nat := 10000
def LOAN_RECORDS : Nat := 400000

-- ===========================================================================
-- Step 5: create_loans (source lines 656-780)
-- ===========================================================================

/-- `int(0.6 * LOAN_RECORDS)` (line 665), modelled as the exact rational
floor.  At the deployed constant the binary64 product `0.6 * 400000` is
exactly `240000.0`, so the float truncation and the rational floor agree. -/
def customers_with_1_loan (L : Nat) : Nat := 3 * L / 5

/-- `int(0.25 * LOAN_RECORDS)` (line 666); `0.25` is an exact binary64
value, so the float truncation is the rational floor. -/
def customers_with_2_loans (L : Nat) : Nat := L / 4

/-- Line 667. -/
def customers_with_3_loans (L : Nat) : Nat :=
  L - customers_with_1_loan L - customers_with_2_loans L

/-- The raw `customer_loan_pairs` list (lines 672-688): the 1-loan pool
contributes each of its draws once, the 2-loan pool twice, the 3-loan pool
three times, in that order.  `singles`, `doubles`, `triples` are the
`random.randint(1, CUSTOMER_RECORDS)` draws of the three loops. -/
def customer_loan_pairs_raw (singles doubles triples : List Nat) : List Nat :=
  singles ++ (doubles.flatMap fun c => [c, c]) ++ (triples.flatMap fun c => [c, c, c])

/-- Lines 691-692: `random.shuffle` followed by truncation to `L` entries.
The shuffle result is passed in as `shuffled`, a permutation of the raw
list. -/
def customer_loan_pairs (shuffled : List Nat) (L : Nat) : List Nat :=
  shuffled.take L

/-- The interest-rate band selected from the simulated CIBIL score
(lines 708-713). -/
def interest_band (cibil_score : Nat) : Rat × Rat :=
  if cibil_score ≥ 750 then (8.5, 11.5)
  else if cibil_score ≥ 650 then (10.5, 14.0)
  else (12.5, 17.5)

/-- EMI computation on the unrounded loan amount (lines 723-728). -/
def emi_raw (loan_amount interest_rate : Rat) (tenure_months : Nat) : Rat :=
  let monthly_rate := interest_rate / 100 / 12
  if monthly_rate > 0 then
    loan_amount * monthly_rate * (1 + monthly_rate) ^ tenure_months /
      ((1 + monthly_rate) ^ tenure_months - 1)
  else
    loan_amount / tenure_months

/-- `default_prob` accumulation (lines 733-737). -/
def default_prob (cibil_score : Nat) : Rat :=
  0.08 + (if cibil_score < 600 then 0.15 else if cibil_score < 700 then 0.08 else 0)

/-- `months_since` (line 731); Python `//` is floor division. -/
def months_since_of (current_date disbursement_date : Int) : Int :=
  max 1 (Int.fdiv (current_date - disbursement_date) 30)

/-- Status determination (lines 739-747). -/
def loan_status_of (status_rand dp : Rat) (months_since : Int)
    (tenure_months : Nat) : String :=
  if status_rand < dp then "Defaulted"
  else if status_rand < dp + 0.06 then "Overdue"
  else if months_since ≥ (tenure_months : Int) then "Closed"
  else "Active"

/-- The per-row randomness consumed by the loan loop (lines 697-764),
besides the customer id taken from `customer_loan_pairs`. -/
structure LoanDraws where
  institution_id : Nat
  base_amount : Rat
  living_expenses : Rat
  cibil_score : Nat
  interest_rate : Rat
  tenure_months : Nat
  days_back : Nat
  disb_delay : Nat
  status_rand : Rat
  purpose : String
deriving DecidableEq, Repr

/-- The ranges the source requests from the seeded generators for one loan
row: `randint(a, b)` is inclusive on both ends, `uniform(a, b)` lies in
`[a, b]`, `random()` lies in `[0, 1)`, `choice`/`choices` return a member
of the option list. -/
structure LoanDraws.Valid (d : LoanDraws) : Prop where
  inst_lo : 1 ≤ d.institution_id
  inst_hi : d.institution_id ≤ OTHER_TABLE_RECORDS
  base_lo : 150000 ≤ d.base_amount
  base_hi : d.base_amount ≤ 800000
  living_lo : 50000 ≤ d.living_expenses
  living_hi : d.living_expenses ≤ 250000
  cibil_lo : 300 ≤ d.cibil_score
  cibil_hi : d.cibil_score ≤ 900
  rate_lo : (interest_band d.cibil_score).1 ≤ d.interest_rate
  rate_hi : d.interest_rate ≤ (interest_band d.cibil_score).2
  tenure_mem : d.tenure_months ∈ [36, 48, 60, 72, 84, 96]
  days_lo : 60 ≤ d.days_back
  days_hi : d.days_back ≤ 1460
  delay_lo : 7 ≤ d.disb_delay
  delay_hi : d.disb_delay ≤ 45
  rand_lo : 0 ≤ d.status_rand
  rand_hi : d.status_rand < 1
  purpose_mem : d.purpose ∈
    ["Course Fees", "Living Expenses", "Course Fees + Living", "Equipment & Books"]

structure LoanRow where
  loan_id : Nat
  customer_id : Nat
  institution_id : Nat
  loan_amount : Rat
  loan_status : String
  interest_rate : Rat
  loan_tenure_months : Nat
  application_date : Int
  disbursement_date : Int
  maturity_date : Int
  emi_amount : Rat
  purpose_of_loan : String
deriving DecidableEq, Repr

/-- One iteration of the loan loop (lines 697-765). -/
def mkLoanRow (current_date : Int) (loan_id customer_id : Nat)
    (d : LoanDraws) : LoanRow :=
  let loan_amount := d.base_amount + d.living_expenses
  let app_date := current_date - (d.days_back : Int)
  let disbursement_date := app_date + (d.disb_delay : Int)
  let maturity_date := disbursement_date + (d.tenure_months : Int) * 30
  let emi_amount := emi_raw loan_amount d.interest_rate d.tenure_months
  let months_since := months_since_of current_date disbursement_date
  { loan_id := loan_id
    customer_id := customer_id
    institution_id := d.institution_id
    loan_amount := round2 loan_amount
    loan_status := loan_status_of d.status_rand (default_prob d.cibil_score)
      months_since d.tenure_months
    interest_rate := round2 d.interest_rate
    loan_tenure_months := d.tenure_months
    application_date := app_date
    disbursement_date := disbursement_date
    maturity_date := maturity_date
    emi_amount := round2 emi_amount
    purpose_of_loan := d.purpose }

/-- The loan table (lines 694-767): row `i` (0-based) pairs
`customer_loan_pairs[i]` with the `i`-th bundle of fresh draws and gets
`loan_id = i + 1`.  Batching (lines 694-695) only affects progress logging,
not the row stream. -/
def create_loans (current_date : Int) (pairs : List Nat)
    (draws : List LoanDraws) : List LoanRow :=
  (pairs.zip draws).enum.map fun p =>
    mkLoanRow current_date (p.1 + 1) p.2.1 p.2.2

@[simp] theorem mkLoanRow_loan_id (cd : Int) (lid cid : Nat) (d : LoanDraws) :
    (mkLoanRow cd lid cid d).loan_id = lid := rfl

@[simp] theorem mkLoanRow_customer_id (cd : Int) (lid cid : Nat) (d : LoanDraws) :
    (mkLoanRow cd lid cid d).customer_id = cid := rfl

@[simp] theorem mkLoanRow_loan_amount (cd : Int) (lid cid : Nat) (d : LoanDraws) :
    (mkLoanRow cd lid cid d).loan_amount = round2 (d.base_amount + d.living_expenses) := rfl

@[simp] theorem mkLoanRow_loan_status (cd : Int) (lid cid : Nat) (d : LoanDraws) :
    (mkLoanRow cd lid cid d).loan_status
      = loan_status_of d.status_rand (default_prob d.cibil_score)
          (months_since_of cd (cd - (d.days_back : Int) + (d.disb_delay : Int)))
          d.tenure_months := rfl

@[simp] theorem mkLoanRow_interest_rate (cd : Int) (lid cid : Nat) (d : LoanDraws) :
    (mkLoanRow cd lid cid d).interest_rate = round2 d.interest_rate := rfl

@[simp] theorem mkLoanRow_tenure (cd : Int) (lid cid : Nat) (d : LoanDraws) :
    (mkLoanRow cd lid cid d).loan_tenure_months = d.tenure_months := rfl

@[simp] theorem mkLoanRow_application_date (cd : Int) (lid cid : Nat) (d : LoanDraws) :
    (mkLoanRow cd lid cid d).application_date = cd - (d.days_back : Int) := rfl

@[simp] theorem mkLoanRow_disbursement_date (cd : Int) (lid cid : Nat) (d : LoanDraws) :
    (mkLoanRow cd lid cid d).disbursement_date
      = cd - (d.days_back : Int) + (d.disb_delay : Int) := rfl

@[simp] theorem mkLoanRow_maturity_date (cd : Int) (lid cid : Nat) (d : LoanDraws) :
    (mkLoanRow cd lid cid d).maturity_date
      = cd - (d.days_back : Int) + (d.disb_delay : Int) + (d.tenure_months : Int) * 30 := rfl

@[simp] theorem mkLoanRow_emi_amount (cd : Int) (lid cid : Nat) (d : LoanDraws) :
    (mkLoanRow cd lid cid d).emi_amount
      = round2 (emi_raw (d.base_amount + d.living_expenses) d.interest_rate d.tenure_months) := rfl

theorem length_flatMap_pair (l : List Nat) :
    (l.flatMap fun c => [c, c]).length = 2 * l.length := by
  induction l with
  | nil => simp
  | cons a t ih => simp only [List.flatMap_cons, List.length_append, List.length_cons,
      List.length_nil, ih]; omega

theorem length_flatMap_triple (l : List Nat) :
    (l.flatMap fun c => [c, c, c]).length = 3 * l.length := by
  induction l with
  | nil => simp
  | cons a t ih => simp only [List.flatMap_cons, List.length_append, List.length_cons,
      List.length_nil, ih]; omega

theorem create_loans_map_loan_id (current_date : Int) (pairs : List Nat)
    (draws : List LoanDraws) :
    (create_loans current_date pairs draws).map LoanRow.loan_id
      = (List.range (min pairs.length draws.length)).map (· + 1) := by
  apply List.ext_getElem
  · simp [create_loans]
  · intro i h1 h2
    simp [create_loans, List.enum, List.getElem_enumFrom]

/-- C1: with target `L = 400000` loans over customer ids `1..500000`, the
customer-assignment sequence built from the 60%/25%/15% pools, shuffled and
truncated, has length exactly `L` with every element in `[1, 500000]`, and
the generated loan table has exactly 400000 rows whose `loan_id` column is
exactly `1, 2, ..., 400000`, with no gaps and no duplicates. -/
theorem loans_target_and_ids
    (singles doubles triples shuffled : List Nat)
    (current_date : Int) (draws : List LoanDraws)
    (hs : singles.length = customers_with_1_loan LOAN_RECORDS)
    (hd : doubles.length = customers_with_2_loans LOAN_RECORDS / 2)
    (ht : triples.length = customers_with_3_loans LOAN_RECORDS / 3)
    (hs1 : ∀ c ∈ singles, 1 ≤ c ∧ c ≤ CUSTOMER_RECORDS)
    (hd1 : ∀ c ∈ doubles, 1 ≤ c ∧ c ≤ CUSTOMER_RECORDS)
    (ht1 : ∀ c ∈ triples, 1 ≤ c ∧ c ≤ CUSTOMER_RECORDS)
    (hperm : shuffled.Perm (customer_loan_pairs_raw singles doubles triples))
    (hdraws : draws.length = LOAN_RECORDS) :
    (customer_loan_pairs shuffled LOAN_RECORDS).length = LOAN_RECORDS ∧
    (∀ c ∈ customer_loan_pairs shuffled LOAN_RECORDS,
        1 ≤ c ∧ c ≤ CUSTOMER_RECORDS) ∧
    (create_loans current_date (customer_loan_pairs shuffled LOAN_RECORDS)
        draws).length = LOAN_RECORDS ∧
    (create_loans current_date (customer_loan_pairs shuffled LOAN_RECORDS)
        draws).map LoanRow.loan_id
      = (List.range LOAN_RECORDS).map (· + 1) := by
  have hraw : (customer_loan_pairs_raw singles doubles triples).length
      = LOAN_RECORDS := by
    simp only [customer_loan_pairs_raw, List.length_append,
      length_flatMap_pair, length_flatMap_triple, hs, hd, ht]
    decide
  have hshuf : shuffled.length = LOAN_RECORDS := by
    rw [hperm.length_eq, hraw]
  have hpairs_len : (customer_loan_pairs shuffled LOAN_RECORDS).length
      = LOAN_RECORDS := by
    simp [customer_loan_pairs, hshuf]
  refine ⟨hpairs_len, ?_, ?_, ?_⟩
  · intro c hc
    have hc2 : c ∈ shuffled := List.mem_of_mem_take hc
    have hc3 : c ∈ customer_loan_pairs_raw singles doubles triples :=
      hperm.mem_iff.mp hc2
    rcases List.mem_append.mp hc3 with h | h
    · rcases List.mem_append.mp h with h | h
      · exact hs1 c h
      · obtain ⟨a, ha, hca⟩ := List.mem_flatMap.mp h
        have hca2 : c = a := by simpa using hca
        exact hca2 ▸ hd1 a ha
    · obtain ⟨a, ha, hca⟩ := List.mem_flatMap.mp h
      have hca3 : c = a := by simpa using hca
      exact hca3 ▸ ht1 a ha
  · simp [create_loans, hpairs_len, hdraws]
  · rw [create_loans_map_loan_id, hpairs_len, hdraws, Nat.min_self]

def c1_singles : List Nat := List.replicate 240000 1
def c1_doubles : List Nat := List.replicate 50000 2
def c1_triples : List Nat := List.replicate 20000 3

def sample_loan_draws : LoanDraws :=
  { institution_id := 1
    base_amount := 150000
    living_expenses := 50000
    cibil_score := 750
    interest_rate := 9
    tenure_months := 36
    days_back := 1460
    disb_delay := 7
    status_rand := 0
    purpose := "Course Fees" }

def c1_draws : List LoanDraws := List.replicate 400000 sample_loan_draws

/-- Witness for C1 at the concrete pool draws `c1_singles`, `c1_doubles`,
`c1_triples`, the identity shuffle, and a constant draw stream. -/
theorem loans_target_and_ids_witness :
    (customer_loan_pairs (customer_loan_pairs_raw c1_singles c1_doubles c1_triples)
        LOAN_RECORDS).length = LOAN_RECORDS ∧
    (∀ c ∈ customer_loan_pairs
        (customer_loan_pairs_raw c1_singles c1_doubles c1_triples) LOAN_RECORDS,
        1 ≤ c ∧ c ≤ CUSTOMER_RECORDS) ∧
    (create_loans 0 (customer_loan_pairs
        (customer_loan_pairs_raw c1_singles c1_doubles c1_triples) LOAN_RECORDS)
        c1_draws).length = LOAN_RECORDS ∧
    (create_loans 0 (customer_loan_pairs
        (customer_loan_pairs_raw c1_singles c1_doubles c1_triples) LOAN_RECORDS)
        c1_draws).map LoanRow.loan_id
      = (List.range LOAN_RECORDS).map (· + 1) :=
  loans_target_and_ids c1_singles c1_doubles c1_triples
    (customer_loan_pairs_raw c1_singles c1_doubles c1_triples) 0 c1_draws
    (by simp only [c1_singles, List.length_replicate]; decide)
    (by simp only [c1_doubles, List.length_replicate]; decide)
    (by simp only [c1_triples, List.length_replicate]; decide)
    (by intro c hc; obtain rfl := List.eq_of_mem_replicate hc; decide)
    (by intro c hc; obtain rfl := List.eq_of_mem_replicate hc; decide)
    (by intro c hc; obtain rfl := List.eq_of_mem_replicate hc; decide)
    (List.Perm.refl _)
    (by simp only [c1_draws, List.length_replicate]; decide)

/-- The amortization formula as the spec states it (§4.5), in the monthly
rate `r`: for `r > 0` it is `P·r·(1+r)^n / ((1+r)^n − 1)`, for `r = 0` it is
`P/n`.  Written from the spec's words, for comparison with `emi_raw`. -/
def emi_spec (P r : Rat) (n : Nat) : Rat :=
  if r > 0 then P * r * (1 + r) ^ n / ((1 + r) ^ n - 1) else P / n

theorem interest_rate_pos (d : LoanDraws) (hv : d.Valid) : 0 < d.interest_rate := by
  have h := hv.rate_lo
  unfold interest_band at h
  split_ifs at h <;> norm_num at h <;> linarith

/-- C2: for every generated loan row the EMI before its final 2-decimal
rounding is exactly the spec's amortization formula in the monthly rate
`r = interest_rate/100/12` (which is positive for every drawn rate band);
the `r = 0` branch of the code computes the spec's `P/n`; and the stored
`emi_amount` is that formula's value up to the 2-decimal rounding tolerance
of 1/200. -/
theorem emi_matches_formula (current_date : Int) (loan_id customer_id : Nat)
    (d : LoanDraws) (hv : d.Valid) :
    0 < d.interest_rate / 100 / 12 ∧
    emi_raw (d.base_amount + d.living_expenses) d.interest_rate d.tenure_months
      = emi_spec (d.base_amount + d.living_expenses) (d.interest_rate / 100 / 12)
          d.tenure_months ∧
    (∀ (P : Rat) (n : Nat), emi_raw P 0 n = emi_spec P 0 n) ∧
    (mkLoanRow current_date loan_id customer_id d).emi_amount
      = round2 (emi_spec (d.base_amount + d.living_expenses)
          (d.interest_rate / 100 / 12) d.tenure_months) ∧
    |(mkLoanRow current_date loan_id customer_id d).emi_amount
      - emi_spec (d.base_amount + d.living_expenses) (d.interest_rate / 100 / 12)
          d.tenure_months| ≤ 1 / 200 := by
  have hr : 0 < d.interest_rate / 100 / 12 := by
    have := interest_rate_pos d hv
    positivity
  have hform : emi_raw (d.base_amount + d.living_expenses) d.interest_rate
      d.tenure_months
      = emi_spec (d.base_amount + d.living_expenses) (d.interest_rate / 100 / 12)
          d.tenure_months := by
    simp only [emi_raw, emi_spec]
  refine ⟨hr, hform, ?_, ?_, ?_⟩
  · intro P n
    simp [emi_raw, emi_spec]
  · rw [mkLoanRow_emi_amount, hform]
  · rw [mkLoanRow_emi_amount, hform]
    exact round2_abs_sub _

/-- Witness for C2 at a concrete valid draw bundle. -/
theorem emi_matches_formula_witness :
    0 < sample_loan_draws.interest_rate / 100 / 12 ∧
    emi_raw (sample_loan_draws.base_amount + sample_loan_draws.living_expenses)
        sample_loan_draws.interest_rate sample_loan_draws.tenure_months
      = emi_spec (sample_loan_draws.base_amount + sample_loan_draws.living_expenses)
          (sample_loan_draws.interest_rate / 100 / 12) sample_loan_draws.tenure_months ∧
    (∀ (P : Rat) (n : Nat), emi_raw P 0 n = emi_spec P 0 n) ∧
    (mkLoanRow 0 1 1 sample_loan_draws).emi_amount
      = round2 (emi_spec (sample_loan_draws.base_amount + sample_loan_draws.living_expenses)
          (sample_loan_draws.interest_rate / 100 / 12) sample_loan_draws.tenure_months) ∧
    |(mkLoanRow 0 1 1 sample_loan_draws).emi_amount
      - emi_spec (sample_loan_draws.base_amount + sample_loan_draws.living_expenses)
          (sample_loan_draws.interest_rate / 100 / 12) sample_loan_draws.tenure_months|
      ≤ 1 / 200 :=
  emi_matches_formula 0 1 1 sample_loan_draws (by constructor <;> norm_num [sample_loan_draws, interest_band, OTHER_TABLE_RECORDS])

/-- The credit-score penalty added to the base default probability, as the
spec words it. -/
def credit_penalty (cibil_score : Nat) : Rat :=
  if cibil_score < 600 then 0.15 else if cibil_score < 700 then 0.08 else 0

/-- Status derivation restated from the spec sentence (§4.5): a single draw
is compared first against `0.08 + penalty` (Defaulted), then against the
next band of width `0.06` (Overdue); only then natural maturity is
consulted (Closed), else Active. -/
def status_spec (draw penalty : Rat) (elapsed_months : Int) (tenure : Nat) : String :=
  if draw < 0.08 + penalty then "Defaulted"
  else if draw < 0.08 + penalty + 0.06 then "Overdue"
  else if (tenure : Int) ≤ elapsed_months then "Closed"
  else "Active"

/-- C3: the generated loan status follows exactly the spec's precedence
(default band first, then overdue band, then maturity), with the penalty
determined by the simulated credit score; and there is a concrete valid
draw for which the elapsed months exceed the tenure and the loan is
nevertheless marked "Defaulted". -/
theorem loan_status_precedence_ok (current_date : Int) (loan_id customer_id : Nat)
    (d : LoanDraws) :
    ((mkLoanRow current_date loan_id customer_id d).loan_status
      = status_spec d.status_rand (credit_penalty d.cibil_score)
          (months_since_of current_date
            (current_date - (d.days_back : Int) + (d.disb_delay : Int)))
          d.tenure_months) ∧
    (∃ (cd : Int) (d0 : LoanDraws), d0.Valid ∧
      (d0.tenure_months : Int)
          ≤ months_since_of cd (cd - (d0.days_back : Int) + (d0.disb_delay : Int)) ∧
      (mkLoanRow cd 1 1 d0).loan_status = "Defaulted") := by
  constructor
  · rw [mkLoanRow_loan_status]
    simp only [loan_status_of, status_spec, default_prob, credit_penalty, ge_iff_le]
  · refine ⟨0, sample_loan_draws, by constructor <;> norm_num [sample_loan_draws, interest_band, OTHER_TABLE_RECORDS], by decide, ?_⟩
    rw [mkLoanRow_loan_status]
    norm_num [loan_status_of, default_prob, sample_loan_draws]

/-- C4: for every generated loan row, `maturity_date` is
`disbursement_date + tenure_months · 30` days, and the disbursement date is
strictly later than the application date. -/
theorem loan_dates_ok (current_date : Int) (loan_id customer_id : Nat)
    (d : LoanDraws) (hv : d.Valid) :
    (mkLoanRow current_date loan_id customer_id d).maturity_date
      = (mkLoanRow current_date loan_id customer_id d).disbursement_date
        + ((mkLoanRow current_date loan_id customer_id d).loan_tenure_months : Int) * 30 ∧
    (mkLoanRow current_date loan_id customer_id d).application_date
      < (mkLoanRow current_date loan_id customer_id d).disbursement_date := by
  refine ⟨rfl, ?_⟩
  rw [mkLoanRow_application_date, mkLoanRow_disbursement_date]
  have h := hv.delay_lo
  omega

/-- Witness for C4 at a concrete valid draw bundle. -/
theorem loan_dates_ok_witness :
    (mkLoanRow 0 1 1 sample_loan_draws).maturity_date
      = (mkLoanRow 0 1 1 sample_loan_draws).disbursement_date
        + ((mkLoanRow 0 1 1 sample_loan_draws).loan_tenure_months : Int) * 30 ∧
    (mkLoanRow 0 1 1 sample_loan_draws).application_date
      < (mkLoanRow 0 1 1 sample_loan_draws).disbursement_date :=
  loan_dates_ok 0 1 1 sample_loan_draws (by constructor <;> norm_num [sample_loan_draws, interest_band, OTHER_TABLE_RECORDS])

-- ===========================================================================
-- Step 6: create_payments (source lines 786-853)
-- ===========================================================================

/-- The randomness consumed by one iteration of the payment loop
(lines 793-827): `loan_id = randint(1, 400000)`, `days_back = randint(1,
730)`, `base_emi = uniform(5000, 50000)`, an underpayment test
`random() < 0.05` with factor `uniform(0.3, 0.8)`, otherwise a jitter
`uniform(-500, 500)`, a weighted method choice, a status test
`random() < 0.92` with fallback `choice(['Failed', 'Pending'])`, and the
success-branch draws. -/
structure PaymentDraws where
  loan_id : Nat
  days_back : Nat
  base_emi : Rat
  underpay_rand : Rat
  underpay_factor : Rat
  delta : Rat
  method : String
  status_rand : Rat
  fail_pick : String
  interest_frac : Rat
  outstanding_s : Rat
  late_rand : Rat
  late_fee_draw : Rat
  outstanding_f : Rat
deriving DecidableEq, Repr

structure PaymentDraws.Valid (d : PaymentDraws) : Prop where
  loan_lo : 1 ≤ d.loan_id
  loan_hi : d.loan_id ≤ 400000
  days_lo : 1 ≤ d.days_back
  days_hi : d.days_back ≤ 730
  emi_lo : 5000 ≤ d.base_emi
  emi_hi : d.base_emi ≤ 50000
  upr_lo : 0 ≤ d.underpay_rand
  upr_hi : d.underpay_rand < 1
  upf_lo : 0.3 ≤ d.underpay_factor
  upf_hi : d.underpay_factor ≤ 0.8
  delta_lo : -500 ≤ d.delta
  delta_hi : d.delta ≤ 500
  method_mem : d.method ∈ ["UPI", "Net Banking", "Debit Card", "Credit Card", "Cheque", "NEFT"]
  sr_lo : 0 ≤ d.status_rand
  sr_hi : d.status_rand < 1
  fail_mem : d.fail_pick ∈ ["Failed", "Pending"]
  if_lo : 0.3 ≤ d.interest_frac
  if_hi : d.interest_frac ≤ 0.7
  os_lo : 50000 ≤ d.outstanding_s
  os_hi : d.outstanding_s ≤ 500000
  lr_lo : 0 ≤ d.late_rand
  lr_hi : d.late_rand < 1
  lf_lo : 0 ≤ d.late_fee_draw
  lf_hi : d.late_fee_draw ≤ 1000
  of_lo : 100000 ≤ d.outstanding_f
  of_hi : d.outstanding_f ≤ 600000

/-- Value of `payment_amount` before storage rounding (lines 802-808): the
underpayment branch or the jittered EMI, floored at 1000 by `max`. -/
def payment_amount_raw (d : PaymentDraws) : Rat :=
  max 1000 (if d.underpay_rand < 0.05 then d.base_emi * d.underpay_factor
            else d.base_emi + d.delta)

/-- Value of `payment_status` (line 816). -/
def payment_status_of (d : PaymentDraws) : String :=
  if d.status_rand < 0.92 then "Success" else d.fail_pick

/-- Value of `interest_component` before rounding (lines 818-827). -/
def interest_component_raw (d : PaymentDraws) : Rat :=
  if payment_status_of d = "Success" then payment_amount_raw d * d.interest_frac
  else 0

/-- Value of `principal_component` before rounding (lines 818-827). -/
def principal_component_raw (d : PaymentDraws) : Rat :=
  if payment_status_of d = "Success"
  then payment_amount_raw d - interest_component_raw d
  else 0

/-- Value of `late_fee` before rounding (lines 818-827). -/
def late_fee_raw (d : PaymentDraws) : Rat :=
  if payment_status_of d = "Success"
  then (if d.late_rand < 0.08 then d.late_fee_draw else 0)
  else 0

/-- Value of `outstanding_balance` before rounding (lines 818-827). -/
def outstanding_raw (d : PaymentDraws) : Rat :=
  if payment_status_of d = "Success" then d.outstanding_s else d.outstanding_f

structure PaymentRow where
  payment_id : Nat
  loan_id : Nat
  payment_date : Int
  payment_amount : Rat
  payment_method : String
  payment_status : String
  late_fee : Rat
  principal_component : Rat
  interest_component : Rat
  outstanding_balance : Rat
deriving DecidableEq, Repr

/-- One iteration of the payment loop (lines 793-840). -/
def mkPaymentRow (current_date : Int) (payment_id : Nat)
    (d : PaymentDraws) : PaymentRow :=
  { payment_id := payment_id
    loan_id := d.loan_id
    payment_date := current_date - (d.days_back : Int)
    payment_amount := round2 (payment_amount_raw d)
    payment_method := d.method
    payment_status := payment_status_of d
    late_fee := round2 (late_fee_raw d)
    principal_component := round2 (principal_component_raw d)
    interest_component := round2 (interest_component_raw d)
    outstanding_balance := round2 (outstanding_raw d) }

@[simp] theorem mkPaymentRow_payment_amount (cd : Int) (pid : Nat) (d : PaymentDraws) :
    (mkPaymentRow cd pid d).payment_amount = round2 (payment_amount_raw d) := rfl

@[simp] theorem mkPaymentRow_payment_status (cd : Int) (pid : Nat) (d : PaymentDraws) :
    (mkPaymentRow cd pid d).payment_status = payment_status_of d := rfl

@[simp] theorem mkPaymentRow_late_fee (cd : Int) (pid : Nat) (d : PaymentDraws) :
    (mkPaymentRow cd pid d).late_fee = round2 (late_fee_raw d) := rfl

@[simp] theorem mkPaymentRow_principal (cd : Int) (pid : Nat) (d : PaymentDraws) :
    (mkPaymentRow cd pid d).principal_component = round2 (principal_component_raw d) := rfl

@[simp] theorem mkPaymentRow_interest (cd : Int) (pid : Nat) (d : PaymentDraws) :
    (mkPaymentRow cd pid d).interest_component = round2 (interest_component_raw d) := rfl

-- ===========================================================================
-- Step 7: create_defaults_collections (source lines 859-937)
-- ===========================================================================

/-- The option set the weighted `collection_status` choice is made from, by
days overdue (lines 879-887). -/
def collection_status_options (days_overdue : Int) : List String :=
  if days_overdue > 730 then ["Written Off", "Legal Action", "Settled"]
  else if days_overdue > 365 then ["Legal Action", "Active", "Written Off"]
  else if days_overdue > 180 then ["Active", "Legal Action"]
  else ["Active"]

/-- The randomness consumed by one iteration of the defaults loop
(lines 866-909). -/
structure DefaultDraws where
  customer_id : Nat
  loan_id : Nat
  days_back : Nat
  default_amount : Rat
  collection_status : String
  contact_attempts : Nat
  contact_days_ago : Nat
  legal_rand : Rat
  settled_rate : Rat
  active_rate : Rat
  legal_rate : Rat
  writeoff_rate : Rat
  collection_agent_id : Nat
deriving DecidableEq, Repr

structure DefaultDraws.Valid (d : DefaultDraws) : Prop where
  cust_lo : 1 ≤ d.customer_id
  cust_hi : d.customer_id ≤ CUSTOMER_RECORDS
  loan_lo : 1 ≤ d.loan_id
  loan_hi : d.loan_id ≤ 400000
  days_lo : 30 ≤ d.days_back
  days_hi : d.days_back ≤ 1095
  amount_lo : 100000 ≤ d.default_amount
  amount_hi : d.default_amount ≤ 800000
  status_mem : d.collection_status ∈ collection_status_options (d.days_back : Int)
  attempts_lo : 5 ≤ d.contact_attempts
  attempts_hi : d.contact_attempts ≤ 50
  contact_lo : 1 ≤ d.contact_days_ago
  contact_hi : d.contact_days_ago ≤ min d.days_back 90
  legal_lo : 0 ≤ d.legal_rand
  legal_hi : d.legal_rand < 1
  settled_lo : 0.4 ≤ d.settled_rate
  settled_hi : d.settled_rate ≤ 0.9
  active_lo : 0 ≤ d.active_rate
  active_hi : d.active_rate ≤ 0.5
  lr_lo : 0.1 ≤ d.legal_rate
  lr_hi : d.legal_rate ≤ 0.6
  wo_lo : 0 ≤ d.writeoff_rate
  wo_hi : d.writeoff_rate ≤ 0.3
  agent_lo : 1 ≤ d.collection_agent_id
  agent_hi : d.collection_agent_id ≤ 100

/-- The `recovery_rates` dict (lines 901-906), looked up at the chosen
collection status; the statuses produced by lines 879-887 are exactly its
four keys. -/
def recovery_rate (d : DefaultDraws) (status : String) : Rat :=
  if status = "Settled" then d.settled_rate
  else if status = "Active" then d.active_rate
  else if status = "Legal Action" then d.legal_rate
  else d.writeoff_rate

structure DefaultRow where
  default_id : Nat
  customer_id : Nat
  loan_id : Nat
  default_date : Int
  default_amount : Rat
  days_overdue : Int
  collection_status : String
  last_contact_date : Int
  contact_attempts : Nat
  legal_notice_sent : Bool
  recovery_amount : Rat
  collection_agent_id : Nat
deriving DecidableEq, Repr

/-- One iteration of the defaults loop (lines 866-924). -/
def mkDefaultRow (current_date : Int) (default_id : Nat)
    (d : DefaultDraws) : DefaultRow :=
  let default_date := current_date - (d.days_back : Int)
  let days_overdue := current_date - default_date
  { default_id := default_id
    customer_id := d.customer_id
    loan_id := d.loan_id
    default_date := default_date
    default_amount := round2 d.default_amount
    days_overdue := days_overdue
    collection_status := d.collection_status
    last_contact_date := current_date - (d.contact_days_ago : Int)
    contact_attempts := d.contact_attempts
    legal_notice_sent :=
      (d.collection_status == "Legal Action" || d.collection_status == "Written Off")
        || (decide (days_overdue > 180) && decide (d.legal_rand < 0.4))
    recovery_amount := round2 (d.default_amount * recovery_rate d d.collection_status)
    collection_agent_id := d.collection_agent_id }

@[simp] theorem mkDefaultRow_default_date (cd : Int) (did : Nat) (d : DefaultDraws) :
    (mkDefaultRow cd did d).default_date = cd - (d.days_back : Int) := rfl

@[simp] theorem mkDefaultRow_default_amount (cd : Int) (did : Nat) (d : DefaultDraws) :
    (mkDefaultRow cd did d).default_amount = round2 d.default_amount := rfl

@[simp] theorem mkDefaultRow_days_overdue (cd : Int) (did : Nat) (d : DefaultDraws) :
    (mkDefaultRow cd did d).days_overdue = cd - (cd - (d.days_back : Int)) := rfl

@[simp] theorem mkDefaultRow_last_contact (cd : Int) (did : Nat) (d : DefaultDraws) :
    (mkDefaultRow cd did d).last_contact_date = cd - (d.contact_days_ago : Int) := rfl

@[simp] theorem mkDefaultRow_recovery (cd : Int) (did : Nat) (d : DefaultDraws) :
    (mkDefaultRow cd did d).recovery_amount
      = round2 (d.default_amount * recovery_rate d d.collection_status) := rfl

theorem round2_zero : round2 0 = 0 := by
  simpa using round2_intCast 0

theorem round2_thousand : round2 1000 = 1000 := by
  simpa using round2_intCast 1000

/-- C9: for every generated payment row, a `Success` payment splits exactly
into `principal_component + interest_component = payment_amount` before the
independent 2-decimal roundings of the stored fields; a `Failed` or
`Pending` payment stores `0` for principal, interest and late fee; and in
every case the stored `payment_amount` is at least 1000. -/
theorem payment_components_ok (current_date : Int) (payment_id : Nat)
    (d : PaymentDraws) :
    (payment_status_of d = "Success" →
      principal_component_raw d + interest_component_raw d
        = payment_amount_raw d) ∧
    (payment_status_of d = "Failed" ∨ payment_status_of d = "Pending" →
      (mkPaymentRow current_date payment_id d).principal_component = 0 ∧
      (mkPaymentRow current_date payment_id d).interest_component = 0 ∧
      (mkPaymentRow current_date payment_id d).late_fee = 0) ∧
    1000 ≤ (mkPaymentRow current_date payment_id d).payment_amount := by
  refine ⟨?_, ?_, ?_⟩
  · intro hs
    simp [principal_component_raw, interest_component_raw, hs]
  · intro hf
    have hns : payment_status_of d ≠ "Success" := by
      rcases hf with h | h <;> rw [h] <;> decide
    simp [principal_component_raw, interest_component_raw, late_fee_raw,
      hns, round2_zero]
  · rw [mkPaymentRow_payment_amount]
    calc (1000 : Rat) = round2 1000 := round2_thousand.symm
      _ ≤ round2 (payment_amount_raw d) := round2_mono (le_max_left _ _)

def sample_payment_draws : PaymentDraws :=
  { loan_id := 1
    days_back := 1
    base_emi := 5000
    underpay_rand := 0.5
    underpay_factor := 0.3
    delta := 0
    method := "UPI"
    status_rand := 0
    fail_pick := "Failed"
    interest_frac := 0.3
    outstanding_s := 50000
    late_rand := 0.5
    late_fee_draw := 0
    outstanding_f := 100000 }

/-- Witness for C9 at a concrete draw bundle. -/
theorem payment_components_ok_witness :
    (payment_status_of sample_payment_draws = "Success" →
      principal_component_raw sample_payment_draws
          + interest_component_raw sample_payment_draws
        = payment_amount_raw sample_payment_draws) ∧
    (payment_status_of sample_payment_draws = "Failed" ∨
        payment_status_of sample_payment_draws = "Pending" →
      (mkPaymentRow 0 1 sample_payment_draws).principal_component = 0 ∧
      (mkPaymentRow 0 1 sample_payment_draws).interest_component = 0 ∧
      (mkPaymentRow 0 1 sample_payment_draws).late_fee = 0) ∧
    1000 ≤ (mkPaymentRow 0 1 sample_payment_draws).payment_amount :=
  payment_components_ok 0 1 sample_payment_draws

theorem recovery_rate_le_one (d : DefaultDraws) (hv : d.Valid) (s : String) :
    recovery_rate d s ≤ 1 := by
  unfold recovery_rate
  have h1 := hv.settled_hi
  have h2 := hv.active_hi
  have h3 := hv.lr_hi
  have h4 := hv.wo_hi
  split_ifs <;> linarith

theorem recovery_rate_nonneg (d : DefaultDraws) (hv : d.Valid) (s : String) :
    0 ≤ recovery_rate d s := by
  unfold recovery_rate
  have h1 := hv.settled_lo
  have h2 := hv.active_lo
  have h3 := hv.lr_lo
  have h4 := hv.wo_lo
  split_ifs <;> linarith

/-- C6: for every generated default/collection row the stored (2-decimal
rounded) `recovery_amount` is at most the stored `default_amount`, and the
same bound holds for the rate drawn for each of the four collection-status
categories. -/
theorem recovery_le_default (current_date : Int) (default_id : Nat)
    (d : DefaultDraws) (hv : d.Valid) :
    (mkDefaultRow current_date default_id d).recovery_amount
      ≤ (mkDefaultRow current_date default_id d).default_amount ∧
    (∀ s ∈ ["Active", "Legal Action", "Settled", "Written Off"],
      round2 (d.default_amount * recovery_rate d s) ≤ round2 d.default_amount) := by
  have key : ∀ s : String,
      round2 (d.default_amount * recovery_rate d s) ≤ round2 d.default_amount := by
    intro s
    apply round2_mono
    have hr1 := recovery_rate_le_one d hv s
    have ha := hv.amount_lo
    nlinarith [recovery_rate_nonneg d hv s]
  exact ⟨key d.collection_status, fun s _ => key s⟩

def sample_default_draws : DefaultDraws :=
  { customer_id := 1
    loan_id := 1
    days_back := 800
    default_amount := 100000
    collection_status := "Settled"
    contact_attempts := 5
    contact_days_ago := 1
    legal_rand := 0
    settled_rate := 0.4
    active_rate := 0
    legal_rate := 0.1
    writeoff_rate := 0
    collection_agent_id := 1 }

/-- Witness for C6 at a concrete valid draw bundle. -/
theorem recovery_le_default_witness :
    (mkDefaultRow 0 1 sample_default_draws).recovery_amount
      ≤ (mkDefaultRow 0 1 sample_default_draws).default_amount ∧
    (∀ s ∈ ["Active", "Legal Action", "Settled", "Written Off"],
      round2 (sample_default_draws.default_amount
          * recovery_rate sample_default_draws s)
        ≤ round2 sample_default_draws.default_amount) :=
  recovery_le_default 0 1 sample_default_draws
    (by constructor <;> norm_num [sample_default_draws, collection_status_options,
      CUSTOMER_RECORDS])

/-- C10: for every generated default/collection row, the default date is at
most the last-contact date, which is at most the run date and at most 90
days before it; and `days_overdue` is exactly the day difference between
the run date and the default date, and at least 30. -/
theorem default_dates_ok (current_date : Int) (default_id : Nat)
    (d : DefaultDraws) (hv : d.Valid) :
    (mkDefaultRow current_date default_id d).default_date
      ≤ (mkDefaultRow current_date default_id d).last_contact_date ∧
    (mkDefaultRow current_date default_id d).last_contact_date ≤ current_date ∧
    current_date - 90 ≤ (mkDefaultRow current_date default_id d).last_contact_date ∧
    (mkDefaultRow current_date default_id d).days_overdue
      = current_date - (mkDefaultRow current_date default_id d).default_date ∧
    30 ≤ (mkDefaultRow current_date default_id d).days_overdue := by
  have h1 := hv.days_lo
  have h2 := hv.contact_lo
  have h3a : d.contact_days_ago ≤ d.days_back :=
    le_trans hv.contact_hi (Nat.min_le_left _ _)
  have h3b : d.contact_days_ago ≤ 90 :=
    le_trans hv.contact_hi (Nat.min_le_right _ _)
  simp only [mkDefaultRow_default_date, mkDefaultRow_last_contact,
    mkDefaultRow_days_overdue]
  refine ⟨?_, ?_, ?_, ?_, ?_⟩ <;> first
  | trivial
  | omega

/-- Witness for C10 at a concrete valid draw bundle. -/
theorem default_dates_ok_witness :
    (mkDefaultRow 0 1 sample_default_draws).default_date
      ≤ (mkDefaultRow 0 1 sample_default_draws).last_contact_date ∧
    (mkDefaultRow 0 1 sample_default_draws).last_contact_date ≤ 0 ∧
    (0 : Int) - 90 ≤ (mkDefaultRow 0 1 sample_default_draws).last_contact_date ∧
    (mkDefaultRow 0 1 sample_default_draws).days_overdue
      = 0 - (mkDefaultRow 0 1 sample_default_draws).default_date ∧
    30 ≤ (mkDefaultRow 0 1 sample_default_draws).days_overdue :=
  default_dates_ok 0 1 sample_default_draws
    (by constructor <;> norm_num [sample_default_draws, collection_status_options,
      CUSTOMER_RECORDS])

-- ===========================================================================
-- main (source lines 1088-1202)
-- ===========================================================================

/-- Model of `main` (lines 1100-1202): the nine `create_*` steps run
sequentially inside a single try/except; there is no per-step handler.  A
step is modelled by an `Except`: `.ok t` is a step that persisted table `t`
to the catalog and returned, `.error e` a step that raised exception `e`.
`runPipeline` returns the catalog contents (tables written, in order)
paired with `main`'s return value: as soon as a step raises, no further
step runs, nothing already written is rolled back, and the result is
`false` (the top-level handler, lines 1198-1202, prints the trace and
returns `False`); when every step completes the result is `true`
(line 1196). -/
def runPipeline (catalog : List String) :
    List (Except String String) → List String × Bool
  | [] => (catalog, true)
  | step :: rest =>
    match step with
    | .ok t => runPipeline (catalog ++ [t]) rest
    | .error _ => (catalog, false)

/-- The nine tables of the pipeline, in execution order
(lines 1103-1137 and 1175-1176). -/
def PIPELINE_TABLES : List String :=
  ["dim_state", "dim_city", "customers", "institutions", "loans",
   "payments", "defaults_collections", "geographic_demographics",
   "economic_indicators"]

theorem runPipeline_ok_append (catalog done : List String)
    (l : List (Except String String)) :
    runPipeline catalog (done.map Except.ok ++ l)
      = runPipeline (catalog ++ done) l := by
  induction done generalizing catalog with
  | nil => simp
  | cons t ts ih =>
    have step : runPipeline catalog
        ((Except.ok t : Except String String) :: (ts.map Except.ok ++ l))
        = runPipeline (catalog ++ [t]) (ts.map Except.ok ++ l) := rfl
    rw [List.map_cons, List.cons_append, step, ih, List.append_assoc,
      List.singleton_append]

/-- C8: if a step raises, the steps after it never run, the top-level
handler makes `main` report failure (`false`), and exactly the tables
persisted by the steps completed before the failure remain written; if no
step raises, all tables are written and `main` reports success (`true`).
Instantiated both generically and at the concrete nine-step pipeline,
including a run whose loans step fails after four tables. -/
theorem pipeline_error_policy :
    (∀ (done : List String) (e : String) (rest : List (Except String String)),
      runPipeline [] (done.map Except.ok ++ Except.error e :: rest)
        = (done, false)) ∧
    (∀ done : List String,
      runPipeline [] (done.map Except.ok) = (done, true)) ∧
    runPipeline [] (PIPELINE_TABLES.map Except.ok) = (PIPELINE_TABLES, true) ∧
    runPipeline []
        ((["dim_state", "dim_city", "customers", "institutions"].map Except.ok)
          ++ Except.error "loan generation failed"
            :: (["payments", "defaults_collections",
                 "geographic_demographics", "economic_indicators"].map Except.ok))
      = (["dim_state", "dim_city", "customers", "institutions"], false) := by
  have herr : ∀ (done : List String) (e : String)
      (rest : List (Except String String)),
      runPipeline [] (done.map Except.ok ++ Except.error e :: rest)
        = (done, false) := by
    intro done e rest
    rw [runPipeline_ok_append, List.nil_append]
    rfl
  have hok : ∀ done : List String,
      runPipeline [] (done.map Except.ok) = (done, true) := by
    intro done
    have h := runPipeline_ok_append [] done []
    simpa using h
  exact ⟨herr, hok, hok PIPELINE_TABLES, herr _ _ _⟩

-- ===========================================================================
-- Determinism of the seeded generator
-- ===========================================================================

/-- The loan table as a function of the seeded draw streams and the run
date: with `Faker.seed(42)`, `random.seed(42)`, `np.random.seed(42)`
(lines 21-24) fixing the process-wide generators, loop iteration `i` reads
the `i`-th customer assignment and the `i`-th bundle of draws; the only
other input is `datetime.now().date()` (line 661). -/
def loansFromStreams (current_date : Int) (L : Nat) (pairs : Nat → Nat)
    (draws : Nat → LoanDraws) : List LoanRow :=
  (List.range L).map fun i => mkLoanRow current_date (i + 1) (pairs i) (draws i)

-- ===========================================================================
-- Step 3: create_customers (source lines 454-569)
-- ===========================================================================

/-- A calendar date assembled as `datetime(birth_year, birth_month,
birth_day)` (lines 487-490). -/
structure BirthDate where
  year : Int
  month : Nat
  day : Nat
deriving DecidableEq, Repr

/-- The randomness consumed by one iteration of the customer loop
(lines 474-556): the weighted city sample drawn from the city dataframe
(line 472, seeded numpy), the gender coin, the seeded-Faker name and
address strings, `age = randint(18, 30)`, `birth_month = randint(1, 12)`,
`birth_day = randint(1, 28)`, the weighted employment choice, the
tier-dependent `base_income` uniform, the five multiplier uniforms of the
dict literal (lines 506-512, in key order), the employment-dependent
`cibil_base` uniform, the phone `randint(7000000000, 9999999999)`, the
employer choice and the weighted education choice. -/
structure CustomerDraws where
  city : CityRow
  gender : String
  first_name : String
  last_name : String
  age : Nat
  birth_month : Nat
  birth_day : Nat
  employment_type : String
  base_income : Rat
  mult_gov : Rat
  mult_priv : Rat
  mult_bus : Rat
  mult_self : Rat
  mult_stud : Rat
  cibil_base : Rat
  phone_digits : Nat
  address : String
  employer : String
  education : String
deriving DecidableEq, Repr

/-- The `multipliers[employment_type]` lookup (lines 506-514). -/
def multiplier_of (d : CustomerDraws) : Rat :=
  if d.employment_type = "Government Employee" then d.mult_gov
  else if d.employment_type = "Private Employee" then d.mult_priv
  else if d.employment_type = "Business Owner" then d.mult_bus
  else if d.employment_type = "Self Employed" then d.mult_self
  else d.mult_stud

/-- `annual_income` before storage rounding (line 514). -/
def annual_income_raw (d : CustomerDraws) : Rat :=
  d.base_income * multiplier_of d

/-- The clamped CIBIL score before `int()` truncation (line 524). -/
def cibil_score_of (d : CustomerDraws) : Rat :=
  min 900 (max 300 (d.cibil_base + (if annual_income_raw d > 1000000 then 50 else 0)))

structure CustomerRow where
  customer_id : Nat
  full_name : String
  phone_number : String
  email_address : String
  city_id : Nat
  current_address : String
  annual_income : Rat
  cibil_score : Int
  employment_type : String
  employer_name : String
  date_of_birth : BirthDate
  gender : String
  education_level : String
deriving DecidableEq, Repr

/-- One iteration of the customer loop (lines 474-556).  `current_year` is
`datetime.now().year` (line 487); the stored `cibil_score` is
`int(cibil_score)`, a floor since the clamped value is at least 300. -/
def mkCustomerRow (current_year : Int) (customer_id : Nat)
    (d : CustomerDraws) : CustomerRow :=
  { customer_id := customer_id
    full_name := d.first_name ++ " " ++ d.last_name
    phone_number := "+91" ++ toString d.phone_digits
    email_address := d.first_name.toLower ++ "." ++ d.last_name.toLower
      ++ toString customer_id ++ "@gmail.com"
    city_id := d.city.city_id
    current_address := d.address
    annual_income := round2 (annual_income_raw d)
    cibil_score := ⌊cibil_score_of d⌋
    employment_type := d.employment_type
    employer_name := d.employer
    date_of_birth := { year := current_year - (d.age : Int)
                       month := d.birth_month
                       day := d.birth_day }
    gender := d.gender
    education_level := d.education }

-- ===========================================================================
-- Step 4: create_institutions (source lines 575-650)
-- ===========================================================================

/-- The randomness consumed by one iteration of the institution loop
(lines 595-637): the weighted city sample, the three name-part choices
(drawn from the prefixes, specializations and institution-type lists), the
tier-dependent `students`/`fees`/`placement`/`establishment` draws, the
`random.random()` of the 5% missing-placement test and the weighted
accreditation choice. -/
structure InstitutionDraws where
  city : CityRow
  pre_word : String
  specialization : String
  inst_type : String
  students : Nat
  fees : Rat
  placement : Rat
  establishment : Nat
  placement_rand : Rat
  accreditation : String
deriving DecidableEq, Repr

structure InstitutionRow where
  institution_id : Nat
  institution_name : String
  city_id : Nat
  institution_type : String
  establishment_year : Nat
  total_students : Nat
  average_course_fee : Rat
  placement_rate : Option Rat
  accreditation_status : String
deriving DecidableEq, Repr

/-- One iteration of the institution loop (lines 595-637); `placement_rate`
is `None` when the 5% test fires (line 635). -/
def mkInstitutionRow (institution_id : Nat) (d : InstitutionDraws) : InstitutionRow :=
  { institution_id := institution_id
    institution_name := d.pre_word ++ " " ++ d.specialization ++ " "
      ++ d.inst_type ++ ", " ++ d.city.city_name
    city_id := d.city.city_id
    institution_type := d.inst_type
    establishment_year := d.establishment
    total_students := d.students
    average_course_fee := round2 d.fees
    placement_rate := if d.placement_rand > 0.05 then some (round2 d.placement) else none
    accreditation_status := d.accreditation }

-- ===========================================================================
-- Step 8: create_geographic_demographics (source lines 943-1002)
-- ===========================================================================

/-- The randomness consumed by one iteration of the demographics loop
(lines 949-977): `city_id = randint(1, len(INDIAN_CITIES))`, the tier
choice, the tier-dependent population/income/unemployment/literacy/college
draws, and the two population fractions `uniform(0.24, 0.36)` and
`uniform(0.12, 0.28)`. -/
structure GeoDraws where
  city_id : Nat
  tier : String
  pop_total : Nat
  avg_income : Rat
  unemployment : Rat
  literacy : Rat
  colleges : Nat
  frac_18_35 : Rat
  frac_enroll : Rat
deriving DecidableEq, Repr

structure GeoRow where
  geo_id : Nat
  city_id : Nat
  population_total : Nat
  population_18_35 : Int
  higher_education_enrollment : Int
  average_household_income : Rat
  unemployment_rate : Rat
  literacy_rate : Rat
  number_of_colleges : Nat
deriving DecidableEq, Repr

/-- One iteration of the demographics loop (lines 949-989); the two `int()`
truncations (lines 976-977) are floors since their arguments are
nonnegative, and the second is applied to the already-truncated
`pop_18_35`. -/
def mkGeoRow (geo_id : Nat) (d : GeoDraws) : GeoRow :=
  let pop_18_35 : Int := ⌊(d.pop_total : Rat) * d.frac_18_35⌋
  { geo_id := geo_id
    city_id := d.city_id
    population_total := d.pop_total
    population_18_35 := pop_18_35
    higher_education_enrollment := ⌊(pop_18_35 : Rat) * d.frac_enroll⌋
    average_household_income := round2 d.avg_income
    unemployment_rate := round2 d.unemployment
    literacy_rate := round2 d.literacy
    number_of_colleges := d.colleges }

-- ===========================================================================
-- Step 9: create_economic_indicators (source lines 1008-1082)
-- ===========================================================================

/-- The randomness consumed by one iteration of the economic-indicator loop
(lines 1016-1057): `state_id = randint(1, len(INDIAN_STATES))`, the year
and quarter choices, the region choice, the six region-dependent uniform
rates, and the two COVID adjustment uniforms consumed in the 2020/2021
branches. -/
structure EconDraws where
  state_id : Nat
  year : Nat
  quarter : String
  region : String
  gdp_growth : Rat
  inflation : Rat
  unemployment : Rat
  per_capita : Rat
  edu_spending : Rat
  literacy : Rat
  covid_gdp : Rat
  covid_unemp : Rat
deriving DecidableEq, Repr

/-- GDP growth after the COVID adjustment (lines 1052-1057). -/
def econ_gdp (d : EconDraws) : Rat :=
  if d.year = 2020 then d.gdp_growth * d.covid_gdp
  else if d.year = 2021 then d.gdp_growth * d.covid_gdp
  else d.gdp_growth

/-- Unemployment after the COVID adjustment (lines 1052-1057). -/
def econ_unemployment (d : EconDraws) : Rat :=
  if d.year = 2020 then d.unemployment * d.covid_unemp
  else if d.year = 2021 then d.unemployment * d.covid_unemp
  else d.unemployment

structure EconRow where
  indicator_id : Nat
  state_id : Nat
  quarter : String
  gdp_growth_rate : Rat
  inflation_rate : Rat
  unemployment_rate : Rat
  education_spending_percent : Rat
  per_capita_income : Rat
  literacy_rate : Rat
deriving DecidableEq, Repr

/-- One iteration of the economic-indicator loop (lines 1016-1069);
`quarter` is the f-string `f"{year}-{quarter}"` (line 1023). -/
def mkEconRow (indicator_id : Nat) (d : EconDraws) : EconRow :=
  { indicator_id := indicator_id
    state_id := d.state_id
    quarter := toString d.year ++ "-" ++ d.quarter
    gdp_growth_rate := round2 (econ_gdp d)
    inflation_rate := round2 d.inflation
    unemployment_rate := round2 (econ_unemployment d)
    education_spending_percent := round2 d.edu_spending
    per_capita_income := round2 d.per_capita
    literacy_rate := round2 d.literacy }

-- ===========================================================================
-- The full pipeline as a function of the seeded draw streams and the date
-- ===========================================================================

/-- The customer table as a function of the seeded draw stream: loop index
`i` (0-based over the batches, lines 467-475) gets `customer_id = i + 1`
and the `i`-th bundle of draws; `current_year` is `datetime.now().year`. -/
def customersFromStreams (current_year : Int) (N : Nat)
    (draws : Nat → CustomerDraws) : List CustomerRow :=
  (List.range N).map fun i => mkCustomerRow current_year (i + 1) (draws i)

/-- The institution table as a function of the seeded draw stream
(lines 589-596): row `i` gets `institution_id = i + 1`. -/
def institutionsFromStreams (N : Nat)
    (draws : Nat → InstitutionDraws) : List InstitutionRow :=
  (List.range N).map fun i => mkInstitutionRow (i + 1) (draws i)

/-- The payment table as a function of the seeded draw stream (line 793:
`for i in range(1, N + 1)`). -/
def paymentsFromStreams (current_date : Int) (N : Nat)
    (draws : Nat → PaymentDraws) : List PaymentRow :=
  (List.range N).map fun i => mkPaymentRow current_date (i + 1) (draws i)

/-- The defaults table as a function of the seeded draw stream (line 866). -/
def defaultsFromStreams (current_date : Int) (N : Nat)
    (draws : Nat → DefaultDraws) : List DefaultRow :=
  (List.range N).map fun i => mkDefaultRow current_date (i + 1) (draws i)

/-- The demographics table as a function of the seeded draw stream
(line 949). -/
def geoFromStreams (N : Nat) (draws : Nat → GeoDraws) : List GeoRow :=
  (List.range N).map fun i => mkGeoRow (i + 1) (draws i)

/-- The economic-indicator table as a function of the seeded draw stream
(line 1016). -/
def econFromStreams (N : Nat) (draws : Nat → EconDraws) : List EconRow :=
  (List.range N).map fun i => mkEconRow (i + 1) (draws i)

/-- All randomness the pipeline consumes, per table, as streams indexed by
loop iteration.  With `Faker.seed(42)`, `random.seed(42)`,
`np.random.seed(42)` (lines 21-24) fixing the process-wide generators once,
these streams are what the seeded sources produce in draw order; the
customer-assignment stream is the shuffled, truncated
`customer_loan_pairs` sequence of lines 672-692. -/
structure PipelineDraws where
  customers : Nat → CustomerDraws
  institutions : Nat → InstitutionDraws
  loan_pairs : Nat → Nat
  loans : Nat → LoanDraws
  payments : Nat → PaymentDraws
  defaults : Nat → DefaultDraws
  geo : Nat → GeoDraws
  econ : Nat → EconDraws

/-- The nine output tables of one run, in pipeline order (lines 1103-1137). -/
structure PipelineOutput where
  dim_state : List StateRow
  dim_city : Option (List CityRow)
  customers : List CustomerRow
  institutions : List InstitutionRow
  loans : List LoanRow
  payments : List PaymentRow
  defaults : List DefaultRow
  geo : List GeoRow
  econ : List EconRow

/-- One run of the full generator (lines 1100-1137): the two dimension
tables are deterministic constants, and each fact table is a pure function
of its draw stream and the run date — `datetime.now().year` feeds the
customer birth years (line 487) and `datetime.now().date()` feeds the
loan, payment and default dates (lines 661, 790, 863). -/
def runGenerator (current_year current_date : Int)
    (s : PipelineDraws) : PipelineOutput :=
  { dim_state := create_dim_state
    dim_city := create_dim_city
    customers := customersFromStreams current_year CUSTOMER_RECORDS s.customers
    institutions := institutionsFromStreams OTHER_TABLE_RECORDS s.institutions
    loans := loansFromStreams current_date LOAN_RECORDS s.loan_pairs s.loans
    payments := paymentsFromStreams current_date OTHER_TABLE_RECORDS s.payments
    defaults := defaultsFromStreams current_date OTHER_TABLE_RECORDS s.defaults
    geo := geoFromStreams OTHER_TABLE_RECORDS s.geo
    econ := econFromStreams OTHER_TABLE_RECORDS s.econ }

theorem range_map_congr {R : Type} (N : Nat) (f g : Nat → R)
    (h : ∀ i < N, f i = g i) :
    (List.range N).map f = (List.range N).map g := by
  apply List.map_congr_left
  intro i hi
  exact h i (List.mem_range.mp hi)

theorem range_map_eq_apply {R : Type} {N : Nat} {f g : Nat → R}
    (h : (List.range N).map f = (List.range N).map g)
    (i : Nat) (hi : i < N) : f i = g i := by
  have h1 : ((List.range N).map f)[i]? = ((List.range N).map g)[i]? := by rw [h]
  simpa [List.getElem?_map, List.getElem?_range hi] using h1


def sample_city_row : CityRow :=
  { city_id := 1
    city_name := "Visakhapatnam"
    state_id := 1
    tier_classification := "Tier2" }

def sample_customer_draws : CustomerDraws :=
  { city := sample_city_row
    gender := "Male"
    first_name := "Arjun"
    last_name := "Sharma"
    age := 18
    birth_month := 1
    birth_day := 1
    employment_type := "Private Employee"
    base_income := 600000
    mult_gov := 1
    mult_priv := 1
    mult_bus := 1
    mult_self := 1
    mult_stud := 0.2
    cibil_base := 700
    phone_digits := 7000000000
    address := "12 MG Road"
    employer := "TCS"
    education := "Bachelors" }

def sample_institution_draws : InstitutionDraws :=
  { city := sample_city_row
    pre_word := "National"
    specialization := "Engineering"
    inst_type := "College"
    students := 3000
    fees := 150000
    placement := 60
    establishment := 1980
    placement_rand := 0.5
    accreditation := "NAAC A" }

def sample_geo_draws : GeoDraws :=
  { city_id := 1
    tier := "Tier2"
    pop_total := 400000
    avg_income := 550000
    unemployment := 4
    literacy := 80
    colleges := 25
    frac_18_35 := 0.3
    frac_enroll := 0.2 }

def sample_econ_draws : EconDraws :=
  { state_id := 1
    year := 2019
    quarter := "Q1"
    region := "South"
    gdp_growth := 7
    inflation := 4
    unemployment := 3
    per_capita := 250000
    edu_spending := 5
    literacy := 85
    covid_gdp := 0.5
    covid_unemp := 1.4 }

/-- A constant draw stream for every table. -/
def const_pipeline_draws : PipelineDraws :=
  { customers := fun _ => sample_customer_draws
    institutions := fun _ => sample_institution_draws
    loan_pairs := fun _ => 1
    loans := fun _ => sample_loan_draws
    payments := fun _ => sample_payment_draws
    defaults := fun _ => sample_default_draws
    geo := fun _ => sample_geo_draws
    econ := fun _ => sample_econ_draws }

/-- The same streams, except the customer-assignment stream differs from
index `LOAN_RECORDS` on — past every draw the loan loop consumes. -/
def variant_pipeline_draws : PipelineDraws :=
  { const_pipeline_draws with
    loan_pairs := fun i => if i < LOAN_RECORDS then 1 else 7 }

/-- C7: the generator is a pure function of the seeded draw streams and the
run date — two runs whose streams agree on the draws each loop consumes
produce all nine output tables identical row for row; the stream form of
the loans table agrees with `create_loans` on materialized draw lists; and
the output genuinely depends on the system date read at run time: two runs
on different dates differ. -/
theorem generator_deterministic :
    (∀ (cy cd : Int) (s t : PipelineDraws),
      (∀ i < CUSTOMER_RECORDS, s.customers i = t.customers i) →
      (∀ i < OTHER_TABLE_RECORDS, s.institutions i = t.institutions i) →
      (∀ i < LOAN_RECORDS, s.loan_pairs i = t.loan_pairs i) →
      (∀ i < LOAN_RECORDS, s.loans i = t.loans i) →
      (∀ i < OTHER_TABLE_RECORDS, s.payments i = t.payments i) →
      (∀ i < OTHER_TABLE_RECORDS, s.defaults i = t.defaults i) →
      (∀ i < OTHER_TABLE_RECORDS, s.geo i = t.geo i) →
      (∀ i < OTHER_TABLE_RECORDS, s.econ i = t.econ i) →
      runGenerator cy cd s = runGenerator cy cd t) ∧
    (∀ (cd : Int) (L : Nat) (p : Nat → Nat) (ds : Nat → LoanDraws),
      loansFromStreams cd L p ds
        = create_loans cd ((List.range L).map p) ((List.range L).map ds)) ∧
    (∃ (cy cd cd' : Int) (s : PipelineDraws),
      runGenerator cy cd s ≠ runGenerator cy cd' s) := by
  refine ⟨?_, ?_, ?_⟩
  · intro cy cd s t hcust hinst hpairs hloans hpay hdef hgeo hecon
    have hc : customersFromStreams cy CUSTOMER_RECORDS s.customers
        = customersFromStreams cy CUSTOMER_RECORDS t.customers :=
      range_map_congr _ _ _ (fun i hi => by rw [hcust i hi])
    have hi2 : institutionsFromStreams OTHER_TABLE_RECORDS s.institutions
        = institutionsFromStreams OTHER_TABLE_RECORDS t.institutions :=
      range_map_congr _ _ _ (fun i hi => by rw [hinst i hi])
    have hl : loansFromStreams cd LOAN_RECORDS s.loan_pairs s.loans
        = loansFromStreams cd LOAN_RECORDS t.loan_pairs t.loans :=
      range_map_congr _ _ _ (fun i hi => by rw [hpairs i hi, hloans i hi])
    have hp : paymentsFromStreams cd OTHER_TABLE_RECORDS s.payments
        = paymentsFromStreams cd OTHER_TABLE_RECORDS t.payments :=
      range_map_congr _ _ _ (fun i hi => by rw [hpay i hi])
    have hd : defaultsFromStreams cd OTHER_TABLE_RECORDS s.defaults
        = defaultsFromStreams cd OTHER_TABLE_RECORDS t.defaults :=
      range_map_congr _ _ _ (fun i hi => by rw [hdef i hi])
    have hg : geoFromStreams OTHER_TABLE_RECORDS s.geo
        = geoFromStreams OTHER_TABLE_RECORDS t.geo :=
      range_map_congr _ _ _ (fun i hi => by rw [hgeo i hi])
    have he : econFromStreams OTHER_TABLE_RECORDS s.econ
        = econFromStreams OTHER_TABLE_RECORDS t.econ :=
      range_map_congr _ _ _ (fun i hi => by rw [hecon i hi])
    unfold runGenerator
    rw [hc, hi2, hl, hp, hd, hg, he]
  · intro cd L p ds
    apply List.ext_getElem
    · simp [loansFromStreams, create_loans]
    · intro i h1 h2
      simp [loansFromStreams, create_loans, List.enum, List.getElem_enumFrom,
        List.getElem_zip]
  · refine ⟨2025, 0, 1, const_pipeline_draws, ?_⟩
    intro h
    have hl0 := congrArg PipelineOutput.loans h
    simp only [runGenerator, loansFromStreams] at hl0
    have hrow := range_map_eq_apply hl0 0 (by norm_num [LOAN_RECORDS])
    have happ := congrArg LoanRow.application_date hrow
    rw [mkLoanRow_application_date, mkLoanRow_application_date] at happ
    omega

/-- Witness for C7: agreement of the streams on the draws each loop
consumes is enough — the two customer-assignment streams here differ from
index 400000 on, and every table of the two runs coincides. -/
theorem generator_deterministic_witness :
    runGenerator 2025 0 const_pipeline_draws
      = runGenerator 2025 0 variant_pipeline_draws :=
  generator_deterministic.1 2025 0 const_pipeline_draws variant_pipeline_draws
    (fun i _ => rfl) (fun i _ => rfl)
    (by intro i hi
        simp [const_pipeline_draws, variant_pipeline_draws, hi])
    (fun i _ => rfl) (fun i _ => rfl) (fun i _ => rfl) (fun i _ => rfl)
    (fun i _ => rfl)
end EduFin
